import Mathlib

/-!
Verification development for the churn-analysis script
(`notebooks/churn_analysis.py`).

The script is a single-pass tabular pipeline.  We embed it shallowly:

* a pandas row becomes a `Record` (a `RawRecord` before normalization);
* a DataFrame becomes a `List Record`;
* float64 arithmetic is idealized as exact rational arithmetic (`ℚ`);
  display rounding (`.round(2)` / `.round(4)`) is presentation only and
  is not modelled;
* Python `int(x)` (truncation toward zero) is `pyInt`;
* the possibly-missing CSV file becomes an `Option` input, with `none`
  standing for `FileNotFoundError`.

Definitions follow the source line by line; definitions that transcribe
the specification's wording instead (for refinement comparisons) say so
in their doc comments.
-/

namespace Churn

/-- One raw CSV row, before the cleaning in `load_and_prepare_data`.
`totalCharges` is `none` when the cell fails numeric coercion
(`pd.to_numeric(..., errors="coerce")` produced `NaN`);
`seniorCitizen` is the raw 0/1 indicator. -/
structure RawRecord where
  customerID : String
  tenure : ℕ
  monthlyCharges : ℚ
  totalCharges : Option ℚ
  contract : String
  paymentMethod : String
  phoneService : String
  multipleLines : String
  internetService : String
  onlineSecurity : String
  onlineBackup : String
  deviceProtection : String
  techSupport : String
  streamingTV : String
  streamingMovies : String
  seniorCitizen : Bool
  partner : String
  dependents : String
  churn : String
deriving DecidableEq

/-- One cleaned row, as produced by `load_and_prepare_data`: the raw
columns plus the derived columns the script adds (`Churned` is the 0/1
integer column, `TenureGroup` the `pd.cut` bucket label — `none` models
`NaN`, i.e. an uncategorized value — `RevenueAtRisk` and
`ServiceCount`). -/
structure Record where
  customerID : String
  tenure : ℕ
  monthlyCharges : ℚ
  totalCharges : ℚ
  contract : String
  paymentMethod : String
  phoneService : String
  multipleLines : String
  internetService : String
  onlineSecurity : String
  onlineBackup : String
  deviceProtection : String
  techSupport : String
  streamingTV : String
  streamingMovies : String
  seniorCitizen : String
  partner : String
  dependents : String
  churn : String
  churned : ℕ
  tenureGroup : Option String
  revenueAtRisk : ℚ
  serviceCount : ℕ
deriving DecidableEq

/-- `pd.cut(df["tenure"], bins=[0, 12, 24, 48, 72], labels=[...])`:
with pandas defaults (`right=True`, `include_lowest=False`) the bins are
the left-open intervals (0,12], (12,24], (24,48], (48,72]; a value in no
bin (0, or anything above 72) is left uncategorized (`NaN`, here
`none`). -/
def tenure_group (t : ℕ) : Option String :=
  if 0 < t ∧ t ≤ 12 then some "0-12 months"
  else if 12 < t ∧ t ≤ 24 then some "13-24 months"
  else if 24 < t ∧ t ≤ 48 then some "25-48 months"
  else if 48 < t ∧ t ≤ 72 then some "49-72 months"
  else none

/-- The nine service columns counted by `ServiceCount`
(`service_cols` in the source). -/
def rawServiceValues (r : RawRecord) : List String :=
  [r.phoneService, r.multipleLines, r.internetService,
   r.onlineSecurity, r.onlineBackup, r.deviceProtection,
   r.techSupport, r.streamingTV, r.streamingMovies]

/-- The predicate of the `ServiceCount` lambda: a service cell counts
when its value is not one of "No", "No phone service",
"No internet service". -/
def isActiveService (v : String) : Bool :=
  !(v == "No" || v == "No phone service" || v == "No internet service")

/-- The cleaning body of `load_and_prepare_data`, per row: fill missing
`TotalCharges` with 0, map `SeniorCitizen` 0/1 to "No"/"Yes", derive the
0/1 `Churned` indicator, the `TenureGroup` bucket, `RevenueAtRisk =
MonthlyCharges * Churned`, and the `ServiceCount`. -/
def prepare (r : RawRecord) : Record :=
  { customerID := r.customerID
    tenure := r.tenure
    monthlyCharges := r.monthlyCharges
    totalCharges := r.totalCharges.getD 0
    contract := r.contract
    paymentMethod := r.paymentMethod
    phoneService := r.phoneService
    multipleLines := r.multipleLines
    internetService := r.internetService
    onlineSecurity := r.onlineSecurity
    onlineBackup := r.onlineBackup
    deviceProtection := r.deviceProtection
    techSupport := r.techSupport
    streamingTV := r.streamingTV
    streamingMovies := r.streamingMovies
    seniorCitizen := if r.seniorCitizen then "Yes" else "No"
    partner := r.partner
    dependents := r.dependents
    churn := r.churn
    churned := if r.churn = "Yes" then 1 else 0
    tenureGroup := tenure_group r.tenure
    revenueAtRisk := r.monthlyCharges * (if r.churn = "Yes" then 1 else 0)
    serviceCount := (rawServiceValues r).countP isActiveService }

/-- `load_and_prepare_data`: the `Option` input models the file lookup —
`none` is `FileNotFoundError`, in which case the function returns `None`
(here `none`) instead of a record set; otherwise every row is cleaned. -/
def load_and_prepare_data (src : Option (List RawRecord)) :
    Option (List Record) :=
  src.map (List.map prepare)

/-- `calculate_risk_score` transcribed if/elif for if: contract and
tenure contributions are `elif` chains, the rest independent `if`s;
the accumulating `score += k` statements become a sum. -/
def calculate_risk_score (r : Record) : ℕ :=
  (if r.contract = "Month-to-month" then 3
   else if r.contract = "One year" then 1 else 0)
  + (if r.tenure ≤ 12 then 3 else if r.tenure ≤ 24 then 1 else 0)
  + (if r.paymentMethod = "Electronic check" then 2 else 0)
  + (if r.techSupport = "No" ∧ r.internetService ≠ "No" then 2 else 0)
  + (if r.onlineSecurity = "No" ∧ r.internetService ≠ "No" then 2 else 0)
  + (if 80 < r.monthlyCharges then 2 else 0)
  + (if r.internetService = "Fiber optic" then 1 else 0)

/-- Transcribed from the specification's rule table (not from the
source): the sum of the points of every matching rule, each rule an
independent addend, no `elif` chaining.  Compared against
`calculate_risk_score` for the refinement claim. -/
def ruleTableScore (r : Record) : ℕ :=
  (if r.contract = "Month-to-month" then 3 else 0)
  + (if r.contract = "One year" then 1 else 0)
  + (if r.tenure ≤ 12 then 3 else 0)
  + (if 12 < r.tenure ∧ r.tenure ≤ 24 then 1 else 0)
  + (if r.paymentMethod = "Electronic check" then 2 else 0)
  + (if r.techSupport = "No" ∧ r.internetService ≠ "No" then 2 else 0)
  + (if r.onlineSecurity = "No" ∧ r.internetService ≠ "No" then 2 else 0)
  + (if 80 < r.monthlyCharges then 2 else 0)
  + (if r.internetService = "Fiber optic" then 1 else 0)

/-- `assign_risk_category`, verbatim threshold chain. -/
def assign_risk_category (score : ℕ) : String :=
  if 10 ≤ score then "Critical Risk"
  else if 7 ≤ score then "High Risk"
  else if 4 ≤ score then "Medium Risk"
  else "Low Risk"

lemma contract_points_eq (c : String) :
    (if c = "Month-to-month" then 3
     else if c = "One year" then (1 : ℕ) else 0)
      = (if c = "Month-to-month" then 3 else 0)
        + (if c = "One year" then 1 else 0) := by
  by_cases h1 : c = "Month-to-month"
  · subst h1; simp
  · by_cases h2 : c = "One year" <;> simp [h1, h2]

lemma tenure_points_eq (t : ℕ) :
    (if t ≤ 12 then 3 else if t ≤ 24 then (1 : ℕ) else 0)
      = (if t ≤ 12 then 3 else 0)
        + (if 12 < t ∧ t ≤ 24 then 1 else 0) := by
  split_ifs <;> omega

lemma risk_score_eq_rule_table (r : Record) :
    calculate_risk_score r = ruleTableScore r := by
  unfold calculate_risk_score ruleTableScore
  rw [contract_points_eq, tenure_points_eq]
  ring

lemma risk_score_le_15 (r : Record) : calculate_risk_score r ≤ 15 := by
  unfold calculate_risk_score
  split_ifs <;> omega

/-- C1: for every record, `calculate_risk_score` returns exactly the sum
of the points of all matching rules of the fixed table (3 for
month-to-month, 1 for one-year, 3 for tenure ≤ 12, 1 for
12 < tenure ≤ 24, 2 for electronic check, 2 for no tech support with
internet, 2 for no online security with internet, 2 for monthly charge
over 80, 1 for fiber); every matching rule contributes and there is no
early exit. -/
theorem C1_risk_score_equals_rule_table_sum (r : Record) :
    calculate_risk_score r = ruleTableScore r :=
  risk_score_eq_rule_table r

/-- C2: every record's risk score lies in [0, 15], and
`assign_risk_category` has exact boundaries: score ≥ 10 is Critical,
7 ≤ score < 10 is High, 4 ≤ score < 7 is Medium, score < 4 is Low; in
particular score 6 is Medium and score 7 is High, and the boundaries at
4, 7 and 10 are exact. -/
theorem C2_risk_bounds_and_category_boundaries :
    (∀ r : Record,
        0 ≤ calculate_risk_score r ∧ calculate_risk_score r ≤ 15) ∧
    (∀ s : ℕ,
        (10 ≤ s → assign_risk_category s = "Critical Risk") ∧
        (7 ≤ s → s < 10 → assign_risk_category s = "High Risk") ∧
        (4 ≤ s → s < 7 → assign_risk_category s = "Medium Risk") ∧
        (s < 4 → assign_risk_category s = "Low Risk")) ∧
    assign_risk_category 6 = "Medium Risk" ∧
    assign_risk_category 7 = "High Risk" ∧
    assign_risk_category 4 = "Medium Risk" ∧
    assign_risk_category 3 = "Low Risk" ∧
    assign_risk_category 10 = "Critical Risk" ∧
    assign_risk_category 9 = "High Risk" := by
  refine ⟨fun r => ⟨Nat.zero_le _, risk_score_le_15 r⟩, fun s => ?_,
    by decide, by decide, by decide, by decide, by decide, by decide⟩
  unfold assign_risk_category
  refine ⟨?_, ?_, ?_, ?_⟩ <;> intros <;> split_ifs <;>
    first | rfl | omega

/-- Witness for C2 at concrete inputs: score 8 is categorized High. -/
theorem C2_witness :
    (7 : ℕ) ≤ 8 ∧ assign_risk_category 8 = "High Risk" :=
  ⟨by decide,
   (C2_risk_bounds_and_category_boundaries.2.1 8).2.1
     (by decide) (by decide)⟩

/-- A row of the table `calculate_clv` returns: the input row (pandas
`df.copy()` keeps every pre-existing column) plus the two new columns
`ProjectedCLV` and `CLVAtRisk`. -/
structure AugRecord where
  base : Record
  projectedCLV : ℚ
  clvAtRisk : ℚ
deriving DecidableEq

/-- `calculate_clv(df, projection_months=36)`: copies the table and adds
`ProjectedCLV = TotalCharges + MonthlyCharges * projection_months` and
`CLVAtRisk = ProjectedCLV * Churned`. -/
def calculate_clv (df : List Record) (projection_months : ℕ) :
    List AugRecord :=
  df.map (fun r =>
    let p : ℚ := r.totalCharges + r.monthlyCharges * (projection_months : ℚ)
    ⟨r, p, p * (r.churned : ℚ)⟩)

/-- A raw row used to build concrete tables in witnesses and
counterexamples; only the fields a given test varies are passed in. -/
def demoRaw (contract paymentMethod partner churn : String)
    (tenure : ℕ) (monthlyCharges totalCharges : ℚ) : RawRecord :=
  { customerID := "0000-DEMO"
    tenure := tenure
    monthlyCharges := monthlyCharges
    totalCharges := some totalCharges
    contract := contract
    paymentMethod := paymentMethod
    phoneService := "Yes"
    multipleLines := "No"
    internetService := "DSL"
    onlineSecurity := "No"
    onlineBackup := "No"
    deviceProtection := "No"
    techSupport := "No"
    streamingTV := "No"
    streamingMovies := "No"
    seniorCitizen := false
    partner := partner
    dependents := "No"
    churn := churn }

/-- C3: every row of `calculate_clv`'s output satisfies
`ProjectedCLV = TotalCharges + MonthlyCharges * horizon` and
`CLVAtRisk = ProjectedCLV` when the record is churned, else 0; a record
with total charge 100 and monthly charge 50 at the default horizon 36
gets `ProjectedCLV = 1900`. -/
theorem C3_clv_formula :
    (∀ (raws : List RawRecord) (m : ℕ) (a : AugRecord),
        a ∈ calculate_clv (raws.map prepare) m →
          a.projectedCLV
              = a.base.totalCharges + a.base.monthlyCharges * m ∧
          a.clvAtRisk
              = if a.base.churned = 1 then a.projectedCLV else 0) ∧
    (∀ r : Record, r.totalCharges = 100 → r.monthlyCharges = 50 →
        (calculate_clv [r] 36).map AugRecord.projectedCLV = [1900]) := by
  constructor
  · intro raws m a ha
    simp only [calculate_clv, List.mem_map] at ha
    obtain ⟨r, hr, rfl⟩ := ha
    obtain ⟨raw, _, rfl⟩ := hr
    refine ⟨rfl, ?_⟩
    show ((prepare raw).totalCharges
          + (prepare raw).monthlyCharges * (m : ℚ))
        * ((prepare raw).churned : ℚ)
        = if (prepare raw).churned = 1 then
            (prepare raw).totalCharges
              + (prepare raw).monthlyCharges * (m : ℚ)
          else 0
    by_cases h : raw.churn = "Yes" <;> simp [prepare, h]
  · intro r h1 h2
    simp only [calculate_clv, List.map_cons, List.map_nil, h1, h2]
    norm_num

/-- A concrete churned record with total charge 100 and monthly
charge 50, used to exercise the CLV formulas. -/
def clvSampleRaw : RawRecord :=
  demoRaw "Two year" "Mailed check" "No" "Yes" 2 50 100

/-- The cleaned form of `clvSampleRaw`. -/
def clvSampleRec : Record := prepare clvSampleRaw

/-- The CLV row `calculate_clv` produces for `clvSampleRec` at
horizon 36. -/
def clvSampleAug : AugRecord :=
  ⟨clvSampleRec,
   clvSampleRec.totalCharges + clvSampleRec.monthlyCharges * 36,
   (clvSampleRec.totalCharges + clvSampleRec.monthlyCharges * 36)
     * (clvSampleRec.churned : ℚ)⟩

/-- Witness for C3 at a concrete churned record with total charge 100
and monthly charge 50. -/
theorem C3_witness :
    (clvSampleAug.projectedCLV
        = clvSampleAug.base.totalCharges
          + clvSampleAug.base.monthlyCharges * 36 ∧
      clvSampleAug.clvAtRisk
        = if clvSampleAug.base.churned = 1 then clvSampleAug.projectedCLV
          else 0) ∧
    clvSampleRec.totalCharges = 100 ∧
    clvSampleRec.monthlyCharges = 50 ∧
    (calculate_clv [clvSampleRec] 36).map AugRecord.projectedCLV
        = [1900] :=
  ⟨C3_clv_formula.1 [clvSampleRaw] 36 clvSampleAug
      (List.mem_singleton.mpr rfl),
   rfl, rfl, C3_clv_formula.2 clvSampleRec rfl rfl⟩

/-- C10: `calculate_clv` does not change the caller's table: the output
rows agree with the input rows on every pre-existing column (their
`base` projection is exactly the input list) and carry only the two new
columns `ProjectedCLV` and `CLVAtRisk`. -/
theorem C10_clv_preserves_input (df : List Record)
    (projection_months : ℕ) :
    (calculate_clv df projection_months).map AugRecord.base = df := by
  induction df with
  | nil => rfl
  | cons r rest ih =>
      simpa [calculate_clv] using ih

/-- C4 counterexample: the claim puts tenure 0 in the first bucket, but
`pd.cut` bins are left-open, so the record with tenure 0 is left
uncategorized (`NaN`/`none`), not in "0-12 months". -/
theorem C4_counterexample :
    (demoRaw "Two year" "Mailed check" "No" "No" 0 50 0).tenure = 0 ∧
    (prepare (demoRaw "Two year" "Mailed check" "No" "No" 0 50 0)
        |>.tenureGroup) = none ∧
    (prepare (demoRaw "Two year" "Mailed check" "No" "No" 0 50 0)
        |>.tenureGroup) ≠ some "0-12 months" := by
  refine ⟨rfl, ?_, ?_⟩ <;> decide

/-- C4 (amended): `tenure_group` is a deterministic pure function of
`tenure_months`; for tenure in [1, 72] it is the bucket of the
left-open partition (0,12], (12,24], (24,48], (48,72] containing it,
so the boundary values 12, 24 and 48 resolve into the lower bucket,
while tenure 0 falls in no bucket (it is left uncategorized). -/
theorem C4_tenure_buckets :
    (∀ raw : RawRecord,
        (prepare raw).tenureGroup = tenure_group raw.tenure) ∧
    (∀ t : ℕ,
        (1 ≤ t → t ≤ 12 → tenure_group t = some "0-12 months") ∧
        (13 ≤ t → t ≤ 24 → tenure_group t = some "13-24 months") ∧
        (25 ≤ t → t ≤ 48 → tenure_group t = some "25-48 months") ∧
        (49 ≤ t → t ≤ 72 → tenure_group t = some "49-72 months") ∧
        (73 ≤ t → tenure_group t = none)) ∧
    tenure_group 0 = none ∧
    tenure_group 12 = some "0-12 months" ∧
    tenure_group 24 = some "13-24 months" ∧
    tenure_group 48 = some "25-48 months" ∧
    tenure_group 72 = some "49-72 months" := by
  refine ⟨fun raw => rfl, fun t => ?_,
    by decide, by decide, by decide, by decide, by decide⟩
  unfold tenure_group
  refine ⟨?_, ?_, ?_, ?_, ?_⟩ <;> intros <;> split_ifs <;>
    first | rfl | omega

/-- Witness for C4 at concrete tenures: 12 stays in the lowest bucket
and 13 moves to the second. -/
theorem C4_witness :
    ((1 : ℕ) ≤ 12 ∧ tenure_group 12 = some "0-12 months") ∧
    ((13 : ℕ) ≤ 13 ∧ tenure_group 13 = some "13-24 months") :=
  ⟨⟨by decide, (C4_tenure_buckets.2.1 12).1 (by decide) (by decide)⟩,
   ⟨by decide, (C4_tenure_buckets.2.1 13).2.1 (by decide) (by decide)⟩⟩

/-- C9: every prepared record's `ServiceCount` is the number of the nine
service columns whose value is outside {"No", "No phone service",
"No internet service"}, hence between 0 and 9. -/
theorem C9_service_count (raw : RawRecord) :
    (prepare raw).serviceCount
        = (rawServiceValues raw).countP (fun v =>
            decide (v ∉ ["No", "No phone service",
                         "No internet service"])) ∧
    0 ≤ (prepare raw).serviceCount ∧ (prepare raw).serviceCount ≤ 9 := by
  have hlen : (rawServiceValues raw).length = 9 := rfl
  have hcount : isActiveService
      = fun v => decide (v ∉ ["No", "No phone service",
                              "No internet service"]) := by
    funext v
    by_cases h1 : v = "No" <;> by_cases h2 : v = "No phone service" <;>
      by_cases h3 : v = "No internet service" <;>
      simp [isActiveService, h1, h2, h3]
  refine ⟨?_, Nat.zero_le _, ?_⟩
  · show List.countP isActiveService (rawServiceValues raw) = _
    rw [hcount]
  · calc (prepare raw).serviceCount
        ≤ (rawServiceValues raw).length := List.countP_le_length _
      _ = 9 := hlen

/-- The distinct values of a column in first-seen order (pandas
`groupby` emits its groups sorted by key; group membership and the
per-group statistics, which are all the claims speak about, do not
depend on the group ordering). -/
def firstSeenAux (seen : List String) : List String → List String
  | [] => []
  | x :: xs =>
      if x ∈ seen then firstSeenAux seen xs
      else x :: firstSeenAux (x :: seen) xs

/-- Distinct column values, first occurrence first. -/
def firstSeen (l : List String) : List String := firstSeenAux [] l

/-- The rows of one `groupby` group: those whose column value is the
group key. -/
def segmentMembers (df : List Record) (col : Record → String)
    (v : String) : List Record :=
  df.filter (fun r => col r == v)

/-- `agg` column `('Churned', 'sum')` for one group. -/
def churnedSum (g : List Record) : ℕ := (g.map Record.churned).sum

/-- `agg` column `('Churned', 'mean')` for one group: the churn rate. -/
def churnRate (g : List Record) : ℚ := (churnedSum g : ℚ) / (g.length : ℚ)

/-- `agg` column `('MonthlyCharges', 'sum')` for one group. -/
def segTotalRevenue (g : List Record) : ℚ :=
  (g.map Record.monthlyCharges).sum

/-- The derived column `Revenue at Risk = Total Revenue * Churn Rate`
of `analyze_churn_by_segment` (display rounding not modelled). -/
def segRevenueAtRisk (g : List Record) : ℚ :=
  segTotalRevenue g * churnRate g

/-- The competing quantity the specification contrasts with
`segRevenueAtRisk`: the sum of the monthly charges of only the churned
members of the group. -/
def churnedMembersRevenue (g : List Record) : ℚ :=
  ((g.filter (fun r => r.churned == 1)).map Record.monthlyCharges).sum

/-- One row of the table `analyze_churn_by_segment` returns. -/
structure SegmentSummary where
  segment : String
  totalCustomers : ℕ
  churnedCustomers : ℕ
  churnRate : ℚ
  totalRevenue : ℚ
  revenueAtRisk : ℚ
deriving DecidableEq

/-- `analyze_churn_by_segment(df, column)`: group by the column and
report count, churned sum, churn rate, revenue sum and
`Revenue at Risk = Total Revenue * Churn Rate` per group. -/
def analyze_churn_by_segment (df : List Record)
    (col : Record → String) : List SegmentSummary :=
  (firstSeen (df.map col)).map (fun v =>
    let g := segmentMembers df col v
    ⟨v, g.length, churnedSum g, churnRate g, segTotalRevenue g,
     segRevenueAtRisk g⟩)

/-- A one-row table whose only segment has churn rate 0: both
revenue-at-risk quantities are 0 there, refuting "differs whenever
churn_rate ≠ 1". -/
def soloActiveDf : List Record :=
  [prepare (demoRaw "Two year" "Mailed check" "No" "No" 30 30 900)]

/-- A two-row table (one active member at charge 30, one churned member
at charge 50) whose only segment has churn rate 1/2 and where the two
revenue-at-risk quantities genuinely differ (40 vs 50). -/
def mixedDf : List Record :=
  [prepare (demoRaw "Two year" "Mailed check" "No" "No" 30 30 900),
   prepare (demoRaw "Two year" "Mailed check" "No" "Yes" 30 50 1500)]

lemma soloActiveDf_analysis :
    analyze_churn_by_segment soloActiveDf Record.contract
      = [⟨"Two year", 1, 0, 0, 30, 0⟩] := by
  have h : firstSeen (soloActiveDf.map Record.contract) = ["Two year"] := by
    decide
  have hg : segmentMembers soloActiveDf Record.contract "Two year"
      = soloActiveDf := by rfl
  simp only [analyze_churn_by_segment, h, List.map_cons, List.map_nil, hg]
  have h1 : churnedSum soloActiveDf = 0 := by decide
  have h2 : soloActiveDf.length = 1 := by decide
  have h4 : segTotalRevenue soloActiveDf = 30 := by
    show (30 : ℚ) + 0 = 30
    norm_num
  refine congrArg (fun s => [s]) ?_
  have h3 : churnRate soloActiveDf = 0 := by
    rw [churnRate, h1, h2]
    norm_num
  have h5 : segRevenueAtRisk soloActiveDf = 0 := by
    rw [segRevenueAtRisk, h3, h4]
    norm_num
  rw [h1, h2, h3, h4, h5]

lemma mixedDf_rate : churnRate mixedDf = 1 / 2 := by
  have h1 : churnedSum mixedDf = 1 := by decide
  have h2 : mixedDf.length = 2 := by decide
  rw [churnRate, h1, h2]
  norm_num

lemma mixedDf_quantities :
    segRevenueAtRisk mixedDf = 40 ∧ churnedMembersRevenue mixedDf = 50 := by
  constructor
  · have h4 : segTotalRevenue mixedDf = 80 := by
      show (30 : ℚ) + (50 + 0) = 80
      norm_num
    rw [segRevenueAtRisk, h4, mixedDf_rate]
    norm_num
  · show (50 : ℚ) + 0 = 50
    norm_num

/-- C5 counterexample: in the one-row table `soloActiveDf` the segment
aggregator produces a segment with churn rate 0 (so churn rate ≠ 1)
whose revenue-at-risk, 0, is EQUAL to the sum of the monthly charges of
its churned members (an empty sum), contradicting the claim that the
two quantities differ for every segment with churn rate ≠ 1. -/
theorem C5_counterexample :
    analyze_churn_by_segment soloActiveDf Record.contract
        = [⟨"Two year", 1, 0, 0, 30, 0⟩] ∧
    (0 : ℚ) ≠ 1 ∧
    churnedMembersRevenue
        (segmentMembers soloActiveDf Record.contract "Two year") = 0 := by
  refine ⟨soloActiveDf_analysis, by norm_num, ?_⟩
  have hg : segmentMembers soloActiveDf Record.contract "Two year"
      = soloActiveDf := by rfl
  rw [hg]
  show (0 : ℚ) = 0
  norm_num

/-- C5 (amended): every segment the aggregator produces satisfies
`revenue_at_risk = total_revenue_in_segment * churn_rate_in_segment`;
this quantity is not in general the sum of the monthly charges of only
the churned members — the two differ in some segments with
churn rate ≠ 1 (e.g. the mixed segment below: 40 vs 50 at churn
rate 1/2) — but they need not differ in every such segment (a segment
with churn rate 0 has both equal to 0). -/
theorem C5_revenue_at_risk :
    (∀ (df : List Record) (col : Record → String)
        (s : SegmentSummary), s ∈ analyze_churn_by_segment df col →
          s.revenueAtRisk = s.totalRevenue * s.churnRate ∧
          s.revenueAtRisk
            = segTotalRevenue (segmentMembers df col s.segment)
              * churnRate (segmentMembers df col s.segment)) ∧
    (churnRate mixedDf ≠ 1 ∧
      segRevenueAtRisk mixedDf ≠ churnedMembersRevenue mixedDf) := by
  constructor
  · intro df col s hs
    simp only [analyze_churn_by_segment, List.mem_map] at hs
    obtain ⟨v, hv, rfl⟩ := hs
    exact ⟨rfl, rfl⟩
  · constructor
    · rw [mixedDf_rate]
      norm_num
    · rw [mixedDf_quantities.1, mixedDf_quantities.2]
      norm_num

/-- Witness for C5: the amended equality applied to the concrete mixed
table, whose unique segment reports revenue-at-risk 40 = 80 * (1/2). -/
theorem C5_witness :
    (⟨"Two year", 2, 1, churnRate mixedDf, segTotalRevenue mixedDf,
        segRevenueAtRisk mixedDf⟩ : SegmentSummary).revenueAtRisk
      = (⟨"Two year", 2, 1, churnRate mixedDf, segTotalRevenue mixedDf,
          segRevenueAtRisk mixedDf⟩ : SegmentSummary).totalRevenue
        * (⟨"Two year", 2, 1, churnRate mixedDf, segTotalRevenue mixedDf,
            segRevenueAtRisk mixedDf⟩ : SegmentSummary).churnRate :=
  (C5_revenue_at_risk.1 mixedDf Record.contract _ (by
    have h : firstSeen (mixedDf.map Record.contract) = ["Two year"] := by
      decide
    have hg : segmentMembers mixedDf Record.contract "Two year"
        = mixedDf := by rfl
    have hl : mixedDf.length = 2 := by decide
    have hc : churnedSum mixedDf = 1 := by decide
    simp only [analyze_churn_by_segment, h, List.map_cons, List.map_nil,
      hg, hl, hc, List.mem_singleton])).1

/-- A count table viewed as rationals. -/
def toQTable (t : List (List ℕ)) : List (List ℚ) :=
  t.map (List.map (fun n : ℕ => (n : ℚ)))

/-- Row marginals of a contingency table. -/
def rowSums (t : List (List ℕ)) : List ℕ := t.map List.sum

/-- Number of columns of a (rectangular) table. -/
def tableCols (t : List (List ℕ)) : ℕ := (t.head?.getD []).length

/-- Column marginals of a contingency table. -/
def colSums (t : List (List ℕ)) : List ℕ :=
  (List.range (tableCols t)).map (fun j =>
    (t.map (fun row => row.getD j 0)).sum)

/-- Grand total of a contingency table. -/
def tableTotal (t : List (List ℕ)) : ℕ := (t.map List.sum).sum

/-- Degrees of freedom `(rows - 1) * (cols - 1)`. -/
def tableDof (t : List (List ℕ)) : ℕ :=
  (t.length - 1) * (tableCols t - 1)

/-- Expected counts under independence:
`E[i][j] = rowSum[i] * colSum[j] / total`. -/
def expectedTable (t : List (List ℕ)) : List (List ℚ) :=
  (rowSums t).map (fun ri =>
    (colSums t).map (fun cj =>
      (ri : ℚ) * (cj : ℚ) / (tableTotal t : ℚ)))

/-- The chi-square sum `Σ (O - E)^2 / E` over two equally shaped
tables. -/
def chiStat (obs expd : List (List ℚ)) : ℚ :=
  ((obs.zip expd).map (fun p =>
    ((p.1.zip p.2).map (fun q => (q.1 - q.2) ^ 2 / q.2)).sum)).sum

/-- Sign function on ℚ (`np.sign`). -/
def qsign (x : ℚ) : ℚ := if 0 < x then 1 else if x < 0 then -1 else 0

/-- Yates' continuity correction as `scipy.stats.chi2_contingency`
implements it: each observed count is moved 1/2 toward its expected
count (`observed + 0.5 * sign(expected - observed)`). -/
def yatesAdjust (obs expd : List (List ℚ)) : List (List ℚ) :=
  (obs.zip expd).map (fun p =>
    (p.1.zip p.2).map (fun q => q.1 + 1 / 2 * qsign (q.2 - q.1)))

/-- Modelled from the spec's words (§4.3): the standard Pearson
chi-square statistic of a contingency table, with no correction. -/
def pearsonChi2 (t : List (List ℕ)) : ℚ :=
  chiStat (toQTable t) (expectedTable t)

/-- The Yates-corrected chi-square statistic of a contingency table. -/
def yatesChi2 (t : List (List ℕ)) : ℚ :=
  chiStat (yatesAdjust (toQTable t) (expectedTable t)) (expectedTable t)

/-- `scipy.stats.chi2_contingency(observed)` with its default arguments
(`correction=True`, `lambda_=None`), as called by the source: the
expected table comes from the marginals, Yates' continuity correction
is applied exactly when the table is 2×2 (`dof == 1`), and the
statistic is the chi-square sum of the (possibly adjusted) observed
table against the expected one.  The p-value (the chi-square survival
function, a transcendental integral) is not modelled; no claim depends
on it. -/
def chi2_contingency (t : List (List ℕ)) : ℚ × ℕ :=
  let obs := toQTable t
  let expd := expectedTable t
  let dof := tableDof t
  let obsAdj := if dof = 1 then yatesAdjust obs expd else obs
  (chiStat obsAdj expd, dof)

/-- `pd.crosstab(df[column1], df[column2])`: counts over the Cartesian
product of the observed categories of the two columns (pandas sorts the
categories; the statistic and the degrees of freedom are invariant
under row/column order, so first-seen order is used here). -/
def crosstab (df : List Record) (c1 c2 : Record → String) :
    List (List ℕ) :=
  (firstSeen (df.map c1)).map (fun a =>
    (firstSeen (df.map c2)).map (fun b =>
      (df.filter (fun r => c1 r == a && c2 r == b)).length))

/-- `chi_square_test(df, column1, column2)`: the contingency table of
the two columns fed to `chi2_contingency`; returns the statistic and
the degrees of freedom. -/
def chi_square_test (df : List Record) (c1 c2 : Record → String) :
    ℚ × ℕ :=
  chi2_contingency (crosstab df c1 c2)

lemma firstSeen_cons (x : String) (xs : List String) :
    firstSeen (x :: xs) = x :: firstSeenAux [x] xs := by
  simp [firstSeen, firstSeenAux]

/-- An 8-row table whose Partner × Churn contingency table is
[[1,3],[3,1]]. -/
def pairedDemoDf : List Record :=
  [prepare (demoRaw "Two year" "Mailed check" "Yes" "Yes" 30 30 900),
   prepare (demoRaw "Two year" "Mailed check" "Yes" "No" 30 30 900),
   prepare (demoRaw "Two year" "Mailed check" "Yes" "No" 30 30 900),
   prepare (demoRaw "Two year" "Mailed check" "Yes" "No" 30 30 900),
   prepare (demoRaw "Two year" "Mailed check" "No" "Yes" 30 30 900),
   prepare (demoRaw "Two year" "Mailed check" "No" "Yes" 30 30 900),
   prepare (demoRaw "Two year" "Mailed check" "No" "Yes" 30 30 900),
   prepare (demoRaw "Two year" "Mailed check" "No" "No" 30 30 900)]

lemma pairedDemoDf_crosstab :
    crosstab pairedDemoDf Record.partner Record.churn
      = [[1, 3], [3, 1]] := by decide

lemma demo_expected :
    expectedTable [[1, 3], [3, 1]] = [[2, 2], [2, 2]] := by
  have h1 : rowSums [[1, 3], [3, 1]] = [4, 4] := by decide
  have h2 : colSums [[1, 3], [3, 1]] = [4, 4] := by decide
  have h3 : tableTotal [[1, 3], [3, 1]] = 8 := by decide
  rw [expectedTable, h1, h2, h3]
  norm_num

lemma qsign_one : qsign 1 = 1 := by
  rw [qsign, if_pos]
  norm_num

lemma qsign_neg_one : qsign (-1) = -1 := by
  rw [qsign, if_neg, if_pos]
  · norm_num
  · norm_num

lemma demo_pearson : pearsonChi2 [[1, 3], [3, 1]] = 2 := by
  rw [pearsonChi2, demo_expected]
  norm_num [toQTable, chiStat, List.zip_cons_cons]

lemma demo_yates : yatesChi2 [[1, 3], [3, 1]] = 1 / 2 := by
  rw [yatesChi2, demo_expected]
  norm_num [toQTable, yatesAdjust, chiStat, List.zip_cons_cons,
    qsign_one, qsign_neg_one]

lemma demo_dof : tableDof [[1, 3], [3, 1]] = 1 := by decide

/-- C7 counterexample: on the concrete 8-row table whose
Partner × Churn contingency table is [[1,3],[3,1]] (a 2×2 table), the
tester returns the Yates-corrected statistic 1/2, not the standard
Pearson statistic, which is 2. -/
theorem C7_counterexample :
    crosstab pairedDemoDf Record.partner Record.churn
        = [[1, 3], [3, 1]] ∧
    chi_square_test pairedDemoDf Record.partner Record.churn
        = (1 / 2, 1) ∧
    pearsonChi2 (crosstab pairedDemoDf Record.partner Record.churn)
        = 2 ∧
    ((1 : ℚ) / 2) ≠ 2 := by
  refine ⟨pairedDemoDf_crosstab, ?_, ?_, by norm_num⟩
  · rw [chi_square_test, pairedDemoDf_crosstab]
    show (chiStat (if tableDof [[1, 3], [3, 1]] = 1 then _ else _) _,
          tableDof [[1, 3], [3, 1]]) = _
    rw [demo_dof, if_pos rfl]
    show (yatesChi2 [[1, 3], [3, 1]], 1) = _
    rw [demo_yates]
  · rw [pairedDemoDf_crosstab, demo_pearson]

/-- C7 (amended): for every pair of categorical columns the tester
builds the contingency table of counts over the Cartesian product of
the observed categories and returns degrees of freedom
`(rows - 1) * (cols - 1)`; the statistic is the standard Pearson
chi-square statistic whenever the degrees of freedom differ from 1, but
for 2×2 tables (dof = 1) scipy's default Yates continuity correction is
applied: each observed count is moved 1/2 toward its expected count
before the Pearson formula. -/
theorem C7_chi_square (df : List Record) (c1 c2 : Record → String) :
    (chi_square_test df c1 c2).2
        = ((firstSeen (df.map c1)).length - 1)
          * ((firstSeen (df.map c2)).length - 1) ∧
    ((chi_square_test df c1 c2).2 ≠ 1 →
        (chi_square_test df c1 c2).1
          = pearsonChi2 (crosstab df c1 c2)) ∧
    ((chi_square_test df c1 c2).2 = 1 →
        (chi_square_test df c1 c2).1
          = yatesChi2 (crosstab df c1 c2)) := by
  have hrows : (crosstab df c1 c2).length
      = (firstSeen (df.map c1)).length := by
    simp [crosstab]
  have hcols : tableCols (crosstab df c1 c2)
      = (firstSeen (df.map c2)).length
      ∨ (firstSeen (df.map c1)).length = 0 := by
    cases df with
    | nil => right; rfl
    | cons r rest =>
        left
        rw [List.map_cons, firstSeen_cons]
        simp [crosstab, tableCols, firstSeen_cons]
  have hdof : (chi_square_test df c1 c2).2
      = ((firstSeen (df.map c1)).length - 1)
        * ((firstSeen (df.map c2)).length - 1) := by
    show tableDof (crosstab df c1 c2) = _
    rw [tableDof, hrows]
    rcases hcols with h | h
    · rw [h]
    · rw [h]
      simp
  refine ⟨hdof, ?_, ?_⟩
  · intro hne
    have hne2 : ¬ tableDof (crosstab df c1 c2) = 1 := hne
    show chiStat (if tableDof (crosstab df c1 c2) = 1 then _ else _) _
        = _
    rw [if_neg hne2]
    rfl
  · intro heq
    have heq2 : tableDof (crosstab df c1 c2) = 1 := heq
    show chiStat (if tableDof (crosstab df c1 c2) = 1 then _ else _) _
        = _
    rw [if_pos heq2]
    rfl

/-- Witness for C7: on the concrete 2×2 Partner × Churn table the
degrees of freedom equal 1 and the returned statistic is the
Yates-corrected one. -/
theorem C7_witness :
    (chi_square_test pairedDemoDf Record.partner Record.churn).2
        = 1 ∧
    (chi_square_test pairedDemoDf Record.partner Record.churn).1
        = yatesChi2 (crosstab pairedDemoDf Record.partner Record.churn) :=
  ⟨by decide,
   (C7_chi_square pairedDemoDf Record.partner Record.churn).2.2
     (by decide)⟩

/-- Python `int(x)`: truncation toward zero. -/
def pyInt (q : ℚ) : ℤ := if 0 ≤ q then ⌊q⌋ else -⌊-q⌋

/-- `converted_customers = int(population * conversion_rate)`
(intervention 1 line `int(monthly_customers * conversion_rate)`;
intervention 2 is the same shape with the migration rate). -/
def converted_customers (pop : ℕ) (rate : ℚ) : ℤ :=
  pyInt ((pop : ℚ) * rate)

/-- `customers_saved = int(converted_customers * churn_reduction)`:
note the code truncates TWICE — once for the converted cohort, once
after multiplying by the churn-rate delta. -/
def customers_saved (pop : ℕ) (rate delta : ℚ) : ℤ :=
  pyInt ((converted_customers pop rate : ℚ) * delta)

/-- `revenue_saved = customers_saved * avg_monthly_charge * 12`. -/
def revenue_protected (pop : ℕ) (rate delta avg : ℚ) : ℚ :=
  (customers_saved pop rate delta : ℚ) * avg * 12

lemma conv_demo : converted_customers 5 (3 / 10) = 1 := by
  have h : (0 : ℚ) ≤ ((5 : ℕ) : ℚ) * (3 / 10) := by norm_num
  rw [converted_customers, pyInt, if_pos h]
  norm_num

lemma saved_demo : customers_saved 5 (3 / 10) (7 / 10) = 0 := by
  rw [customers_saved, conv_demo]
  have h : (0 : ℚ) ≤ ((1 : ℤ) : ℚ) * (7 / 10) := by norm_num
  rw [pyInt, if_pos h]
  norm_num

/-- C6 counterexample: with a targeted population of 5, conversion rate
3/10 and churn-rate delta 7/10, the code saves
`int(int(5 * 0.3) * 0.7) = int(0.7) = 0` customers, while the claimed
single floor gives `floor(5 * 0.3 * 0.7) = floor(1.05) = 1`. -/
theorem C6_counterexample :
    customers_saved 5 (3 / 10) (7 / 10) = 0 ∧
    (⌊(5 : ℚ) * (3 / 10) * (7 / 10)⌋ : ℤ) = 1 ∧
    (0 : ℤ) ≠ 1 := by
  refine ⟨saved_demo, ?_, by norm_num⟩
  norm_num

/-- C6 (amended): for nonnegative conversion rate and churn-rate delta,
`customers_saved` is the DOUBLE truncation
`floor(floor(population_targeted * conversion_rate) * churn_rate_delta)`
— the converted cohort is truncated to a whole number of customers
first, and the product with the churn-rate delta is truncated again —
and `revenue_protected = customers_saved * avg_monthly_charge * 12`. -/
theorem C6_impact_arithmetic (pop : ℕ) (rate delta avg : ℚ)
    (hr : 0 ≤ rate) (hd : 0 ≤ delta) :
    customers_saved pop rate delta
        = ⌊((⌊(pop : ℚ) * rate⌋ : ℤ) : ℚ) * delta⌋ ∧
    revenue_protected pop rate delta avg
        = (customers_saved pop rate delta : ℚ) * avg * 12 := by
  have h1 : (0 : ℚ) ≤ (pop : ℚ) * rate :=
    mul_nonneg (Nat.cast_nonneg pop) hr
  have h2 : converted_customers pop rate = ⌊(pop : ℚ) * rate⌋ := by
    rw [converted_customers, pyInt, if_pos h1]
  have h3 : (0 : ℚ) ≤ ((⌊(pop : ℚ) * rate⌋ : ℤ) : ℚ) * delta := by
    refine mul_nonneg ?_ hd
    exact_mod_cast Int.floor_nonneg.mpr h1
  constructor
  · rw [customers_saved, h2, pyInt, if_pos h3]
  · rfl

/-- Witness for C6 at population 5, rate 3/10, delta 7/10, average
charge 70: both truncations agree with the floor-of-floor form. -/
theorem C6_witness :
    (0 : ℚ) ≤ 3 / 10 ∧ (0 : ℚ) ≤ 7 / 10 ∧
    (customers_saved 5 (3 / 10) (7 / 10)
        = ⌊((⌊((5 : ℕ) : ℚ) * (3 / 10)⌋ : ℤ) : ℚ) * (7 / 10)⌋ ∧
      revenue_protected 5 (3 / 10) (7 / 10) 70
        = (customers_saved 5 (3 / 10) (7 / 10) : ℚ) * 70 * 12) :=
  ⟨by norm_num, by norm_num,
   C6_impact_arithmetic 5 (3 / 10) (7 / 10) 70
     (by norm_num) (by norm_num)⟩

/-- `PaymentMethod.str.contains("credit card", case=False)`. -/
def containsCreditCard (s : String) : Bool :=
  (s.toLower.splitOn "credit card").length != 1

/-- Mean of a list of rationals (pandas `mean`; empty lists give the
junk value 0 where pandas gives NaN — reached only on empty groups). -/
def meanQ (l : List ℚ) : ℚ := l.sum / (l.length : ℚ)

/-- `df[mask]["Churned"].mean()`. -/
def churnMean (df : List Record) (p : Record → Bool) : ℚ :=
  meanQ ((df.filter p).map (fun r => (r.churned : ℚ)))

/-- The scalar outputs of Section 7 of the script. -/
structure ImpactSummary where
  customersSavedContract : ℤ
  revenueSavedContract : ℚ
  customersSavedPayment : ℤ
  revenueSavedPayment : ℚ
  customersSavedTech : ℤ
  revenueSavedTech : ℚ
  techInvestment : ℚ
  netBenefitTech : ℚ
  totalCustomersSaved : ℤ
  totalRevenueProtected : ℚ
  newChurnRate : ℚ
  roi : ℚ
deriving DecidableEq

/-- Section 7 of the script (business impact): the three intervention
scenarios, their sum, the projected churn rate and the ROI against the
fixed 180000 investment. -/
def computeImpact (df : List Record) : ImpactSummary :=
  let monthlyCustomers :=
    (df.filter (fun r => r.contract == "Month-to-month")).length
  let monthlyChurn := churnMean df (fun r => r.contract == "Month-to-month")
  let annualChurn := churnMean df (fun r => r.contract == "One year")
  let avgMonthlyCharge := meanQ (df.map Record.monthlyCharges)
  let savedContract :=
    customers_saved monthlyCustomers (3 / 10) (monthlyChurn - annualChurn)
  let revContract := (savedContract : ℚ) * avgMonthlyCharge * 12
  let echeckCustomers :=
    (df.filter (fun r =>
      r.paymentMethod == "Electronic check" && r.churned == 0)).length
  let echeckChurn :=
    churnMean df (fun r => r.paymentMethod == "Electronic check")
  let ccChurn := churnMean df (fun r => containsCreditCard r.paymentMethod)
  let savedPayment :=
    customers_saved echeckCustomers (2 / 5) (echeckChurn - ccChurn)
  let revPayment := (savedPayment : ℚ) * avgMonthlyCharge * 12
  let noTech :=
    (df.filter (fun r =>
      r.techSupport == "No" && r.internetService != "No"
        && r.churned == 0)).length
  let noTechChurn :=
    churnMean df (fun r =>
      r.techSupport == "No" && r.internetService != "No")
  let withTechChurn := churnMean df (fun r => r.techSupport == "Yes")
  let savedTech := pyInt ((noTech : ℚ) * (noTechChurn - withTechChurn))
  let revTech := (savedTech : ℚ) * avgMonthlyCharge * 12
  let investTech : ℚ := (noTech : ℚ) * (8 * 12)
  let netTech := revTech - investTech
  let totalSaved := savedContract + savedPayment + savedTech
  let totalRev := revContract + revPayment + netTech
  let churnedCount := (df.map Record.churned).sum
  let newRate := ((churnedCount : ℚ) - (totalSaved : ℚ)) / (df.length : ℚ)
  ⟨savedContract, revContract, savedPayment, revPayment, savedTech,
   revTech, investTech, netTech, totalSaved, totalRev, newRate,
   totalRev / 180000⟩

/-- Everything the downstream stages of the script compute from the
prepared table: the six segment analyses, the seven chi-square tests,
the CLV-augmented table, the risk scores of the active and of the
churned subsets, and the impact summary. -/
structure PipelineOutputs where
  contractAnalysis : List SegmentSummary
  paymentAnalysis : List SegmentSummary
  tenureAnalysis : List SegmentSummary
  internetAnalysis : List SegmentSummary
  techAnalysis : List SegmentSummary
  seniorAnalysis : List SegmentSummary
  chiResults : List (String × ℚ × ℕ)
  clvTable : List AugRecord
  activeRisk : List (ℕ × String)
  churnedRisk : List (ℕ × String)
  impact : ImpactSummary

/-- The downstream stages of the script, run on a prepared table
(pandas drops `NaN` group keys, hence the `tenureGroup.isSome`
filter). -/
def computeOutputs (df : List Record) : PipelineOutputs :=
  { contractAnalysis := analyze_churn_by_segment df Record.contract
    paymentAnalysis := analyze_churn_by_segment df Record.paymentMethod
    tenureAnalysis :=
      analyze_churn_by_segment
        (df.filter (fun r => r.tenureGroup.isSome))
        (fun r => r.tenureGroup.getD "")
    internetAnalysis := analyze_churn_by_segment df Record.internetService
    techAnalysis := analyze_churn_by_segment df Record.techSupport
    seniorAnalysis := analyze_churn_by_segment df Record.seniorCitizen
    chiResults :=
      [("Contract", chi_square_test df Record.contract Record.churn),
       ("PaymentMethod",
        chi_square_test df Record.paymentMethod Record.churn),
       ("TechSupport", chi_square_test df Record.techSupport Record.churn),
       ("InternetService",
        chi_square_test df Record.internetService Record.churn),
       ("SeniorCitizen",
        chi_square_test df Record.seniorCitizen Record.churn),
       ("Partner", chi_square_test df Record.partner Record.churn),
       ("Dependents", chi_square_test df Record.dependents Record.churn)]
    clvTable := calculate_clv df 36
    activeRisk :=
      (df.filter (fun r => r.churned == 0)).map (fun r =>
        (calculate_risk_score r,
         assign_risk_category (calculate_risk_score r)))
    churnedRisk :=
      (df.filter (fun r => r.churned == 1)).map (fun r =>
        (calculate_risk_score r,
         assign_risk_category (calculate_risk_score r)))
    impact := computeImpact df }

/-- The whole run: normalization first, downstream stages only on its
result (the script's `if df is not None:` guards). -/
def runAnalysis (src : Option (List RawRecord)) :
    Option PipelineOutputs :=
  (load_and_prepare_data src).map computeOutputs

/-- C8: when the data source cannot be located, normalization returns
no record set (`none`) and the whole run produces no downstream output;
conversely every produced output comes from a successfully prepared
table — each downstream computation is reached only when normalization
succeeded. -/
theorem C8_missing_source_stops_pipeline :
    load_and_prepare_data none = none ∧
    runAnalysis none = none ∧
    (∀ (src : Option (List RawRecord)) (out : PipelineOutputs),
        runAnalysis src = some out →
          load_and_prepare_data src ≠ none ∧
          out = computeOutputs ((load_and_prepare_data src).getD [])) := by
  refine ⟨rfl, rfl, ?_⟩
  intro src out h
  cases src with
  | none => exact absurd h (by simp [runAnalysis, load_and_prepare_data])
  | some raws =>
      refine ⟨by simp [load_and_prepare_data], ?_⟩
      have h2 : computeOutputs (raws.map prepare) = out := by
        simpa [runAnalysis, load_and_prepare_data] using h
      exact h2.symm

/-- Witness for C8 on a concrete one-row source: the run succeeds and
its output is the downstream computation of the prepared table. -/
theorem C8_witness :
    runAnalysis (some [clvSampleRaw])
        = some (computeOutputs ([clvSampleRaw].map prepare)) ∧
    load_and_prepare_data (some [clvSampleRaw]) ≠ none ∧
    computeOutputs ([clvSampleRaw].map prepare)
        = computeOutputs
            ((load_and_prepare_data (some [clvSampleRaw])).getD []) :=
  ⟨rfl,
   C8_missing_source_stops_pipeline.2.2 (some [clvSampleRaw])
     (computeOutputs ([clvSampleRaw].map prepare)) rfl⟩

end Churn
